import Mathlib

/-!
# SocietyGuard — verification of the event ingestion and aggregation core

Shallow embedding of the SocietyGuard backend (`src/server.js` and the
second backend variant `src/unnamed/part_000`): the webhook ingestion
pipeline (`POST /webhook`), the event store (the `events` table with its
`event_uid` uniqueness constraint and `ON CONFLICT (event_uid) DO NOTHING`
insert), and the `/api/stats` aggregation queries.

Modelling conventions:
* Timestamps are seconds since the Unix epoch (`Int`).  The SQL cast
  `(ts)::date` of a `TIMESTAMPTZ` under a UTC session becomes floor
  division by 86400; the fixed IST shift `INTERVAL '5 hours 30 minutes'`
  (`IST_OFFSET_MS` in the source) is 19800 seconds.
* JavaScript `a || b || c` chains on strings are modelled with explicit
  truthiness (`none` and `""` are falsy).
* `new Date(utcStr)` is modelled by `parseISO`, a parser for strict
  `YYYY-MM-DDTHH:MM:SSZ` strings that returns `none` (JS `NaN`) on any
  other input; the `new Date().toISOString()` ingestion-time fallback is
  modelled by passing the current instant `now` directly.
* The per-record `Math.random()` uid suffix and the possibility that one
  `INSERT` throws (transient store failure caught by the `try/catch`)
  are external inputs; each webhook record carries them explicitly.
-/

namespace SocietyGuard

/-! ## Calendar arithmetic (proleptic Gregorian, epoch 1970-01-01) -/

def isLeap (y : Nat) : Bool :=
  (y % 4 == 0 && y % 100 != 0) || y % 400 == 0

def daysInYear (y : Nat) : Nat := if isLeap y then 366 else 365

/-- Days from 1970-01-01 up to January 1st of year `y` (for `y ≥ 1970`). -/
def daysBeforeYear (y : Nat) : Nat :=
  (List.range (y - 1970)).foldl (fun acc i => acc + daysInYear (1970 + i)) 0

def monthLengths (y : Nat) : List Nat :=
  [31, if isLeap y then 29 else 28, 31, 30, 31, 30, 31, 31, 30, 31, 30, 31]

def daysBeforeMonth (y m : Nat) : Nat :=
  ((monthLengths y).take (m - 1)).foldl (· + ·) 0

def monthLen (y m : Nat) : Nat := ((monthLengths y).get? (m - 1)).getD 31

/-- Day number (days since 1970-01-01) of the civil date `y-m-d`. -/
def epochDay (y m d : Nat) : Nat :=
  daysBeforeYear y + daysBeforeMonth y m + (d - 1)

/-- Seconds since the epoch of the UTC instant `y-m-d hh:mi:ss`. -/
def utcSec (y m d hh mi ss : Nat) : Int :=
  ((epochDay y m d) * 86400 + hh * 3600 + mi * 60 + ss : Nat)

/-! ## String helpers (ASCII, mirroring the JS string operations used) -/

/-- ASCII `toLowerCase` on a character. -/
def lowerChar (c : Char) : Char :=
  if 'A' ≤ c && c ≤ 'Z' then Char.ofNat (c.toNat + 32) else c

/-- ASCII model of JS `String.prototype.toLowerCase`. -/
def lowerStr (s : String) : String := String.mk (s.toList.map lowerChar)

/-- `needle` occurs at the start of `hay`. -/
def startsWithCL : List Char → List Char → Bool
  | [], _ => true
  | _ :: _, [] => false
  | a :: as, b :: bs => a == b && startsWithCL as bs

def containsAux (needle : List Char) : List Char → Bool
  | [] => startsWithCL needle []
  | c :: rest => startsWithCL needle (c :: rest) || containsAux needle rest

/-- Model of JS `String.prototype.includes`: `containsSub hay needle`. -/
def containsSub (hay needle : String) : Bool :=
  containsAux needle.toList hay.toList

/-- JS truthiness for an optional string: `undefined`/`null`/`""` are falsy. -/
def jsTruthy : Option String → Bool
  | none => false
  | some s => !(s == "")

/-- Model of a JS `a || b || ... || dflt` chain over string expressions. -/
def firstTruthy : List (Option String) → String → String
  | [], dflt => dflt
  | o :: rest, dflt => if jsTruthy o then o.getD "" else firstTruthy rest dflt

/-- Model of a JS `a || b || ...` chain that may stay falsy (no default). -/
def firstTruthyO : List (Option String) → Option String
  | [] => none
  | o :: rest => if jsTruthy o then o else firstTruthyO rest

/-! ## Timestamp parsing

`toIST` in both backend variants is

```js
function toIST(utcStr) {
  const d = new Date(utcStr);
  if (isNaN(d)) return null;
  return new Date(d.getTime()+IST_OFFSET_MS).toISOString();
}
```

`parseISO` models `new Date(utcStr)` restricted to strict ISO-8601 UTC
strings `YYYY-MM-DDTHH:MM:SSZ` (every timestamp exercised in this
development has that shape); every other string is an invalid date. -/

def digitVal (c : Char) : Option Nat :=
  if '0' ≤ c && c ≤ '9' then some (c.toNat - 48) else none

def IST_OFFSET : Int := 19800

def parseISO (s : String) : Option Int :=
  match s.toList with
  | [y1, y2, y3, y4, sep1, mo1, mo2, sep2, d1, d2, sept,
     h1, h2, sep3, mi1, mi2, sep4, s1, s2, sepz] =>
    if sep1 == '-' && sep2 == '-' && sept == 'T' &&
       sep3 == ':' && sep4 == ':' && sepz == 'Z' then
      match [y1, y2, y3, y4, mo1, mo2, d1, d2, h1, h2, mi1, mi2, s1, s2].mapM digitVal with
      | some [a, b, c, d, e, f, g, h, i, j, k, l, m, n] =>
        let y := a * 1000 + b * 100 + c * 10 + d
        let mo := e * 10 + f
        let da := g * 10 + h
        let hh := i * 10 + j
        let mi := k * 10 + l
        let ss := m * 10 + n
        if 1970 ≤ y && 1 ≤ mo && mo ≤ 12 && 1 ≤ da && da ≤ monthLen y mo &&
           hh ≤ 23 && mi ≤ 59 && ss ≤ 59 then
          some (utcSec y mo da hh mi ss)
        else none
      | _ => none
    else none
  | _ => none

/-- `toIST` (both variants): parse, shift by the fixed +5:30 offset;
`none` models the `null` returned for an unparseable timestamp. -/
def toIST (s : String) : Option Int := (parseISO s).map (· + IST_OFFSET)

/-! ## Raw vendor payload (the loosely-typed webhook JSON shape) -/

/-- One entry of the vendor `objectsFound` list; `type` may be absent. -/
structure ObjFound where
  type : Option String
  deriving Repr, DecidableEq

/-- `raw.integration` — vendor integration metadata. -/
structure Integration where
  clientId : Option String
  siteId : Option String
  deriving Repr, DecidableEq

/-- `raw.data` — nested vendor payload fields the pipeline reads. -/
structure RawData where
  startTimeUtc : Option String
  thumbnailUrl : Option String
  sharedVideoUrl : Option String
  objectsFound : Option (List ObjFound)
  deriving Repr, DecidableEq

/-- One raw webhook record.  Every field is optional, as in the vendor
JSON; absent fields are `none`. -/
structure RawEvent where
  deviceId : Option String := none
  camera_id : Option String := none
  type : Option String := none
  event_type : Option String := none
  id : Option String := none
  integration : Option Integration := none
  data : Option RawData := none
  timestamp_utc : Option String := none
  objectsFound : Option (List ObjFound) := none
  deriving Repr, DecidableEq

/-! ## Canonical Event record (one row of the `events` table) -/

structure Event where
  event_uid : String
  camera_id : String
  camera_location : String
  event_type : String
  event_type_raw : String
  visitor_count : Nat
  client_id : String
  thumbnail_url : Option String
  video_url : Option String
  /-- parsed instant of the stored `timestamp_utc` column, seconds. -/
  timestamp_utc : Int
  /-- parsed instant of the stored `timestamp_ist` column, seconds. -/
  timestamp_ist : Int
  source_id : String
  deriving Repr, DecidableEq

/-! ## Event type classification

`mapEventType` from `src/server.js` (the variant without the analytic
branch), and `mapEventTypeRich` from `src/unnamed/part_000` (which
additionally inspects the `objectsFound` descriptors for `analytic`
types).  The JS guard `if (!type) return "unknown"` is falsy-based, so
`none` and `""` both yield `"unknown"`. -/

def mapEventType (type : Option String) : String :=
  match type with
  | none => "unknown"
  | some s =>
    if s == "" then "unknown" else
    if containsSub (lowerStr s) "motion" || containsSub (lowerStr s) "person" ||
       containsSub (lowerStr s) "people" then "person_detected" else
    if containsSub (lowerStr s) "vehicle" || containsSub (lowerStr s) "car" ||
       containsSub (lowerStr s) "alpr" then "vehicle_detected" else
    if containsSub (lowerStr s) "crowd" then "crowd_detected" else
    if containsSub (lowerStr s) "loiter" then "loitering" else
    if containsSub (lowerStr s) "offline" || containsSub (lowerStr s) "disconnect" then
      "camera_offline" else
    if containsSub (lowerStr s) "online" || containsSub (lowerStr s) "connect" then
      "camera_online" else
    lowerStr s

/-- `raw?.data?.objectsFound || raw?.objectsFound || []` — an empty JS
array is truthy, so only `undefined`/`null` fall through. -/
def resolveObjects (raw : RawEvent) : List ObjFound :=
  ((raw.data.bind RawData.objectsFound).orElse (fun _ => raw.objectsFound)).getD []

def mapEventTypeRich (type : Option String) (raw : RawEvent) : String :=
  match type with
  | none => "unknown"
  | some s =>
    if s == "" then "unknown" else
    if lowerStr s == "analytic" || containsSub (lowerStr s) "analytic" then
      (fun types =>
        if types.any (fun x => containsSub x "person" || containsSub x "people") then
          "person_detected" else
        if types.any (fun x => containsSub x "vehicle" || containsSub x "car") then
          "vehicle_detected" else
        if types.any (fun x => containsSub x "crowd") then "crowd_detected" else
        if types.any (fun x => containsSub x "face") then "person_detected" else
        "analytic")
      ((resolveObjects raw).map (fun o => lowerStr (o.type.getD "")))
    else
    if containsSub (lowerStr s) "motion" || containsSub (lowerStr s) "person" ||
       containsSub (lowerStr s) "people" then "person_detected" else
    if containsSub (lowerStr s) "vehicle" || containsSub (lowerStr s) "car" ||
       containsSub (lowerStr s) "alpr" then "vehicle_detected" else
    if containsSub (lowerStr s) "crowd" then "crowd_detected" else
    if containsSub (lowerStr s) "loiter" then "loitering" else
    if containsSub (lowerStr s) "offline" || containsSub (lowerStr s) "disconnect" then
      "camera_offline" else
    if containsSub (lowerStr s) "online" || containsSub (lowerStr s) "connect" then
      "camera_online" else
    lowerStr s

/-! ## Visitor counting -/

/-- `const visitorTypes = ["person_detected","vehicle_detected","crowd_detected"]`. -/
def visitorTypes : List String := ["person_detected", "vehicle_detected", "crowd_detected"]

/-- `src/server.js` webhook handler:
`visitor_count: visitorTypes.includes(event_type) ? 1 : 0`. -/
def visitorCountServer (event_type : String) : Nat :=
  if visitorTypes.contains event_type then 1 else 0

/-- Is this descriptor a person/people/face descriptor?
`["person","people","face"].includes((o.type||"").toLowerCase())`. -/
def isPersonObj (o : ObjFound) : Bool :=
  ["person", "people", "face"].contains (lowerStr (o.type.getD ""))

/-- `src/unnamed/part_000` webhook handler:
`visitorTypes.includes(event_type) ? Math.max(1, objects.filter(...).length) : 0`. -/
def visitorCountRich (event_type : String) (objects : List ObjFound) : Nat :=
  if visitorTypes.contains event_type then
    max 1 (objects.filter isPersonObj).length
  else 0

/-! ## Registries (read-only collaborators: `cameras` / `societies` tables) -/

structure Society where
  id : Nat
  code : String
  deriving Repr, DecidableEq

structure Camera where
  camera_uid : String
  name : String
  deriving Repr, DecidableEq

structure Env where
  cameras : List Camera
  societies : List Society
  deriving Repr, DecidableEq

/-- `getCameraName`: `SELECT name FROM cameras WHERE camera_uid=$1`, then
`rows[0]?.name || `Camera ${cameraUid}``. -/
def getCameraName (env : Env) (cameraUid : String) : String :=
  match env.cameras.find? (fun c => c.camera_uid == cameraUid) with
  | some c => if c.name == "" then "Camera " ++ cameraUid else c.name
  | none => "Camera " ++ cameraUid

/-- `getSocietyCode`: default tenant `"C01"` when no integration metadata;
otherwise `integration.clientId || integration.siteId || "C01"`, looked up
by `code=$1 OR id::text=$1`, falling back to the raw identifier. -/
def getSocietyCode (env : Env) (integration : Option Integration) : String :=
  match integration with
  | none => "C01"
  | some intg =>
    (fun raw =>
      match env.societies.find? (fun s => s.code == raw || toString s.id == raw) with
      | some s => if s.code == "" then raw else s.code
      | none => raw)
    (firstTruthy [intg.clientId, intg.siteId] "C01")

/-! ## Event store

The `events` table with its `UNIQUE` constraint on `event_uid`, modelled
as a list of rows in insertion order.  `insertEvent` is the embedding of

```sql
INSERT INTO events (...) VALUES (...) ON CONFLICT (event_uid) DO NOTHING
```

whose boolean result is the reported row count (`true` = newly inserted,
`false` = conflict no-op). -/

def insertEvent (e : Event) (store : List Event) : List Event × Bool :=
  if store.any (fun x => x.event_uid == e.event_uid) then (store, false)
  else (store ++ [e], true)

/-! ## The webhook ingestion pipeline (`app.post("/webhook")`, src/server.js)

One `WebhookItem` is a raw record together with the two external inputs
its processing consumes: the `Math.random()` uid suffix, and whether its
`INSERT` throws (a transient store failure absorbed by the `try/catch`). -/

structure WebhookItem where
  raw : RawEvent
  rand : String
  dbFail : Bool := false
  deriving Repr, DecidableEq

/-- `raw.data?.startTimeUtc || raw.timestamp_utc` (before the
`new Date().toISOString()` fallback). -/
def tsResolved (raw : RawEvent) : Option String :=
  firstTruthyO [raw.data.bind RawData.startTimeUtc, raw.timestamp_utc]

/-- The instant stored in `timestamp_utc`: the resolved vendor string
parsed, or the ingestion instant `now` when no vendor timestamp was
supplied.  `none` means `toIST` returned `null` and the record is
skipped. -/
def tsParsed (raw : RawEvent) (now : Int) : Option Int :=
  match tsResolved raw with
  | some s => parseISO s
  | none => some now

/-- Process one webhook record against the store: returns the new store
and the number (0 or 1) added to `processed`. -/
def processItem (env : Env) (now : Int) (item : WebhookItem)
    (store : List Event) : List Event × Nat :=
  match tsParsed item.raw now with
  | none => (store, 0)
  | some t =>
    (fun ev => if item.dbFail then (store, 0) else ((insertEvent ev store).1, 1))
    { event_uid :=
        firstTruthy [item.raw.deviceId, item.raw.camera_id] "UNKNOWN" ++ "-" ++
        (if jsTruthy item.raw.id then item.raw.id.getD "" else toString now) ++ "-" ++
        item.rand
      camera_id := firstTruthy [item.raw.deviceId, item.raw.camera_id] "UNKNOWN"
      camera_location :=
        getCameraName env (firstTruthy [item.raw.deviceId, item.raw.camera_id] "UNKNOWN")
      event_type := mapEventType (some (firstTruthy [item.raw.type, item.raw.event_type] "unknown"))
      event_type_raw := firstTruthy [item.raw.type, item.raw.event_type] "unknown"
      visitor_count :=
        visitorCountServer
          (mapEventType (some (firstTruthy [item.raw.type, item.raw.event_type] "unknown")))
      client_id := getSocietyCode env item.raw.integration
      thumbnail_url :=
        if jsTruthy (item.raw.data.bind RawData.thumbnailUrl) then
          item.raw.data.bind RawData.thumbnailUrl else none
      video_url :=
        if jsTruthy (item.raw.data.bind RawData.sharedVideoUrl) then
          item.raw.data.bind RawData.sharedVideoUrl else none
      timestamp_utc := t
      timestamp_ist := t + IST_OFFSET
      source_id := if jsTruthy item.raw.id then item.raw.id.getD "" else "" }

/-- The webhook loop: `for (const raw of rawEvents) { ... }`, threading the
store and accumulating `processed`. -/
def processWebhook (env : Env) (now : Int) :
    List WebhookItem → List Event → List Event × Nat
  | [], store => (store, 0)
  | item :: rest, store =>
    (fun p1 => (fun p2 => (p2.1, p1.2 + p2.2)) (processWebhook env now rest p1.1))
    (processItem env now item store)

/-- The route's HTTP response:
`res.status(200).json({ received: processed })`. -/
structure WebhookResponse where
  status : Nat
  received : Nat
  deriving Repr, DecidableEq

def webhookRoute (env : Env) (now : Int) (items : List WebhookItem)
    (store : List Event) : List Event × WebhookResponse :=
  (fun p => (p.1, { status := 200, received := p.2 })) (processWebhook env now items store)

/-! ## Aggregation engine (`app.get("/api/stats")`)

The tenant filter `cid` is the optional `client_id` query parameter; the
SQL appends `AND client_id='...'` when present.  `now` is the instant of
`NOW()`.  Under a UTC session, `(x)::date` is floor division of the epoch
seconds by 86400, so

* event bucket: `(timestamp_utc + INTERVAL '5 hours 30 minutes')::date`
  becomes `(e.timestamp_utc + IST_OFFSET).fdiv 86400`,
* reference day: `(NOW() - INTERVAL '5 hours 30 minutes')::date`
  becomes `(now - IST_OFFSET).fdiv 86400`. -/

def matchesCid (cid : Option String) (e : Event) : Bool :=
  match cid with
  | none => true
  | some c => e.client_id == c

/-- `COALESCE(SUM(visitor_count),0)` over a row list. -/
def sumVC (l : List Event) : Nat := (l.map Event.visitor_count).sum

/-- `visitors.today`:
`SELECT COALESCE(SUM(visitor_count),0) FROM events WHERE event_type IN vt
AND (timestamp_utc+INTERVAL '5:30')::date=(NOW()-INTERVAL '5:30')::date [AND client_id=cid]`. -/
def visitorsToday (events : List Event) (cid : Option String) (now : Int) : Nat :=
  sumVC (events.filter (fun e =>
    visitorTypes.contains e.event_type &&
    ((e.timestamp_utc + IST_OFFSET).fdiv 86400 == (now - IST_OFFSET).fdiv 86400) &&
    matchesCid cid e))

/-- `visitors.yesterday`: same with `((NOW()-INTERVAL '5:30')::date - INTERVAL '1 day')`. -/
def visitorsYesterday (events : List Event) (cid : Option String) (now : Int) : Nat :=
  sumVC (events.filter (fun e =>
    visitorTypes.contains e.event_type &&
    ((e.timestamp_utc + IST_OFFSET).fdiv 86400 == (now - IST_OFFSET).fdiv 86400 - 1) &&
    matchesCid cid e))

/-- `visitors.week`:
`... WHERE event_type IN vt AND timestamp_utc>=NOW()-INTERVAL '7 days' [AND client_id=cid]`
— a plain instant comparison on `timestamp_utc`. -/
def visitorsWeek (events : List Event) (cid : Option String) (now : Int) : Nat :=
  sumVC (events.filter (fun e =>
    visitorTypes.contains e.event_type &&
    decide (now - 7 * 86400 ≤ e.timestamp_utc) &&
    matchesCid cid e))

/-- Keep the first occurrence of each string (SQL `GROUP BY` key set in
first-appearance order). -/
def uniqAux (seen : List String) : List String → List String
  | [] => []
  | x :: xs => if seen.contains x then uniqAux seen xs else x :: uniqAux (x :: seen) xs

def uniq (l : List String) : List String := uniqAux [] l

structure ActivityRow where
  camera_id : String
  location : String
  count : Nat
  deriving Repr, DecidableEq

structure DowntimeRow where
  camera_id : String
  location : String
  incidents : Nat
  downtime_minutes : Nat
  deriving Repr, DecidableEq

def insertByCountDesc (r : ActivityRow) : List ActivityRow → List ActivityRow
  | [] => [r]
  | x :: xs => if x.count ≤ r.count then r :: x :: xs else x :: insertByCountDesc r xs

/-- `ORDER BY count DESC` (insertion sort; stability is irrelevant to the
claims proved here). -/
def sortByCountDesc : List ActivityRow → List ActivityRow
  | [] => []
  | x :: xs => insertByCountDesc x (sortByCountDesc xs)

/-- `camera_activity`:
`SELECT e.camera_id, COALESCE(c.name,'Camera '||e.camera_id) as location, COUNT(*)
FROM events e LEFT JOIN cameras c ON c.camera_uid=e.camera_id
WHERE e.timestamp_utc>=NOW()-INTERVAL '7 days' [AND client_id=cid]
GROUP BY e.camera_id, c.name ORDER BY count DESC`. -/
def cameraActivity (events : List Event) (cid : Option String) (env : Env)
    (now : Int) : List ActivityRow :=
  (fun wk => sortByCountDesc ((uniq (wk.map Event.camera_id)).map (fun cam =>
    { camera_id := cam
      location := getCameraName env cam
      count := wk.countP (fun e => e.camera_id == cam) })))
  (events.filter (fun e =>
    decide (now - 7 * 86400 ≤ e.timestamp_utc) && matchesCid cid e))

/-- `downtime`:
`SELECT e.camera_id, COALESCE(c.name,'Camera '||e.camera_id) as location,
COUNT(*) as incidents, COUNT(*)*30 as downtime_minutes
FROM events e LEFT JOIN cameras c ON c.camera_uid=e.camera_id
WHERE e.event_type='camera_offline' [AND client_id=cid]
GROUP BY e.camera_id, c.name`. -/
def downtimeList (events : List Event) (cid : Option String) (env : Env) :
    List DowntimeRow :=
  (fun off => (uniq (off.map Event.camera_id)).map (fun cam =>
    { camera_id := cam
      location := getCameraName env cam
      incidents := off.countP (fun e => e.camera_id == cam)
      downtime_minutes := off.countP (fun e => e.camera_id == cam) * 30 }))
  (events.filter (fun e => (e.event_type == "camera_offline") && matchesCid cid e))

/-- `total_events_stored`: `SELECT COUNT(*) FROM events` (unfiltered). -/
def totalEventsStored (events : List Event) : Nat := events.length

structure Visitors where
  today : Nat
  yesterday : Nat
  week : Nat
  deriving Repr, DecidableEq

/-- The parts of the `/api/stats` snapshot the claims are about. -/
structure StatsSnapshot where
  visitors : Visitors
  camera_activity : List ActivityRow
  downtime : List DowntimeRow
  total_events_stored : Nat
  deriving Repr, DecidableEq

def statsSnapshot (events : List Event) (cid : Option String) (env : Env)
    (now : Int) : StatsSnapshot :=
  { visitors :=
      { today := visitorsToday events cid now
        yesterday := visitorsYesterday events cid now
        week := visitorsWeek events cid now }
    camera_activity := cameraActivity events cid env now
    downtime := downtimeList events cid env
    total_events_stored := totalEventsStored events }

/-! ## Specification-side definitions

These follow the wording of the specification (not the SQL), to be
compared with the embedded code above. -/

/-- The IST-local calendar date of a stored event: the date component of
`timestamp_utc` plus 5 hours 30 minutes. -/
def istLocalDate (e : Event) : Int := (e.timestamp_utc + IST_OFFSET).fdiv 86400

/-- The reference day the stats queries compare against:
`(NOW() - INTERVAL '5 hours 30 minutes')::date`. -/
def istRefDate (now : Int) : Int := (now - IST_OFFSET).fdiv 86400

/-- The tenant filter as a proposition: no filter accepts everything, a
filter is exact string equality on `client_id`. -/
def inTenant : Option String → Event → Prop
  | none, _ => True
  | some c, e => e.client_id = c

instance (cid : Option String) (e : Event) : Decidable (inTenant cid e) :=
  match cid with
  | none => isTrue trivial
  | some c => String.decEq e.client_id c

/-- Spec reading of a daily visitor bucket: the sum of `visitor_count`
over visitor-class events whose IST-local calendar date is `d`. -/
def specDaySum (events : List Event) (cid : Option String) (d : Int) : Nat :=
  events.foldr (fun e acc =>
    if e.event_type ∈ visitorTypes ∧ istLocalDate e = d ∧ inTenant cid e then
      e.visitor_count + acc
    else acc) 0

/-- Spec reading of an instant-window visitor sum: the sum of
`visitor_count` over visitor-class events whose `timestamp_utc` is at or
after `cutoff`. -/
def specSinceSum (events : List Event) (cid : Option String) (cutoff : Int) : Nat :=
  events.foldr (fun e acc =>
    if e.event_type ∈ visitorTypes ∧ cutoff ≤ e.timestamp_utc ∧ inTenant cid e then
      e.visitor_count + acc
    else acc) 0

/-- The ordered classification rule table, as the spec words it: a list
of (substring vocabulary, canonical type) pairs, evaluated top to
bottom. -/
def typeRules : List (List String × String) :=
  [(["motion", "person", "people"], "person_detected"),
   (["vehicle", "car", "alpr"], "vehicle_detected"),
   (["crowd"], "crowd_detected"),
   (["loiter"], "loitering"),
   (["offline", "disconnect"], "camera_offline"),
   (["online", "connect"], "camera_online")]

/-- First matching rule wins; when no rule matches, the (lowercased)
input passes through. -/
def applyRules (t : String) : List (List String × String) → String
  | [] => t
  | (kws, res) :: rest =>
    if kws.any (fun k => containsSub t k) then res else applyRules t rest

/-- Spec reading of the classifier: `unknown` for an absent type, else
the ordered case-insensitive substring rules with passthrough. -/
def classifySpec (type : Option String) : String :=
  if jsTruthy type then applyRules (lowerStr (type.getD "")) typeRules else "unknown"

/-- Spec reading of visitor counting: for visitor-class types the number
of person/people/face descriptors, but at least 1 when no such
descriptor is present; 0 for every other type. -/
def claimVisitorCount (event_type : String) (objects : List ObjFound) : Nat :=
  if event_type ∈ visitorTypes then
    (fun k => if k = 0 then 1 else k) (objects.filter isPersonObj).length
  else 0

/-- A type value outside the analytic branch (`none`, or a string whose
lowercase form does not contain `"analytic"`). -/
abbrev nonAnalytic : Option String → Prop
  | none => True
  | some s => containsSub (lowerStr s) "analytic" = false

/-- The event-log invariant of the data model section: every stored event
has `timestamp_ist` equal to `timestamp_utc` shifted by +5:30, the
`event_uid`s are pairwise distinct, and non-visitor-class events have
`visitor_count = 0`. -/
def StoreInv (s : List Event) : Prop :=
  (∀ e ∈ s, e.timestamp_ist = e.timestamp_utc + IST_OFFSET) ∧
  (s.map Event.event_uid).Nodup ∧
  (∀ e ∈ s, e.event_type ∉ visitorTypes → e.visitor_count = 0)

/-! ## Concrete fixtures used by witnesses and counterexamples -/

def envEx : Env :=
  { cameras := [{ camera_uid := "93518", name := "Main Gate" }]
    societies := [{ id := 1, code := "C01" }] }

/-- A concrete "now": 2026-02-26 12:00:00 UTC. -/
def exNow : Int := utcSec 2026 2 26 12 0 0

def evPerson1 : Event :=
  { event_uid := "e1", camera_id := "93518", camera_location := "Main Gate"
    event_type := "person_detected", event_type_raw := "Person"
    visitor_count := 1, client_id := "C01"
    thumbnail_url := none, video_url := none
    timestamp_utc := utcSec 2026 2 26 9 0 0
    timestamp_ist := utcSec 2026 2 26 9 0 0 + IST_OFFSET, source_id := "" }

def evPerson2 : Event :=
  { event_uid := "e2", camera_id := "93518", camera_location := "Main Gate"
    event_type := "person_detected", event_type_raw := "People-Motion"
    visitor_count := 2, client_id := "C01"
    thumbnail_url := none, video_url := none
    timestamp_utc := utcSec 2026 2 26 10 0 0
    timestamp_ist := utcSec 2026 2 26 10 0 0 + IST_OFFSET, source_id := "" }

def evOffline : Event :=
  { event_uid := "e3", camera_id := "93518", camera_location := "Main Gate"
    event_type := "camera_offline", event_type_raw := "CameraDisconnectEvent"
    visitor_count := 0, client_id := "C01"
    thumbnail_url := none, video_url := none
    timestamp_utc := utcSec 2026 2 26 11 0 0
    timestamp_ist := utcSec 2026 2 26 11 0 0 + IST_OFFSET, source_id := "" }

/-- The spec's aggregation example: two person events (counts 1 and 2)
and one `camera_offline` event, one tenant. -/
def exampleEvents : List Event := [evPerson1, evPerson2, evOffline]

/-- The event of the IST-bucketing example: `timestamp_utc` =
2026-02-25T19:00:00Z. -/
def evFeb25 : Event :=
  { event_uid := "f1", camera_id := "93518", camera_location := "Main Gate"
    event_type := "person_detected", event_type_raw := "person"
    visitor_count := 1, client_id := "C01"
    thumbnail_url := none, video_url := none
    timestamp_utc := utcSec 2026 2 25 19 0 0
    timestamp_ist := utcSec 2026 2 25 19 0 0 + IST_OFFSET, source_id := "" }

/-- 2026-02-22T13:00:00Z — IST date 2026-02-22, inside the trailing
7 × 24 h window of `nowMar1`. -/
def evW1 : Event :=
  { event_uid := "w1", camera_id := "93518", camera_location := "Main Gate"
    event_type := "person_detected", event_type_raw := "person"
    visitor_count := 1, client_id := "C01"
    thumbnail_url := none, video_url := none
    timestamp_utc := utcSec 2026 2 22 13 0 0
    timestamp_ist := utcSec 2026 2 22 13 0 0 + IST_OFFSET, source_id := "" }

/-- 2026-02-22T11:00:00Z — same IST calendar date as `evW1`, but outside
the trailing 7 × 24 h window of `nowMar1`. -/
def evW2 : Event :=
  { event_uid := "w2", camera_id := "93518", camera_location := "Main Gate"
    event_type := "person_detected", event_type_raw := "person"
    visitor_count := 1, client_id := "C01"
    thumbnail_url := none, video_url := none
    timestamp_utc := utcSec 2026 2 22 11 0 0
    timestamp_ist := utcSec 2026 2 22 11 0 0 + IST_OFFSET, source_id := "" }

def nowMar1 : Int := utcSec 2026 3 1 12 0 0

/-- A single-record payload whose `timestamp_utc` is `"not-a-date"`. -/
def itemBad : WebhookItem :=
  { raw := { timestamp_utc := some "not-a-date" }, rand := "bbbb" }

def itemGood1 : WebhookItem :=
  { raw := { deviceId := some "93518", type := some "person", id := some "v1"
             timestamp_utc := some "2026-02-26T09:00:00Z" }
    rand := "aaaa" }

def itemGood3 : WebhookItem :=
  { raw := { deviceId := some "93518", type := some "vehicle", id := some "v3"
             timestamp_utc := some "2026-02-26T10:00:00Z" }
    rand := "cccc" }

/-- A visitor-class record carrying two person descriptors. -/
def rawTwoPersons : RawEvent :=
  { type := some "person"
    objectsFound := some [{ type := some "person" }, { type := some "person" }] }

def itemTwoPersons : WebhookItem := { raw := rawTwoPersons, rand := "zz99" }

/-! ## Helper lemmas -/

theorem startsWithCL_refl (l : List Char) : startsWithCL l l = true := by
  induction l with
  | nil => rfl
  | cons c rest ih => simp [startsWithCL, ih]

theorem containsSub_self (s : String) : containsSub s s = true := by
  unfold containsSub
  cases h : s.toList with
  | nil => rfl
  | cons c rest => simp [containsAux, startsWithCL_refl]

theorem matchesCid_iff (cid : Option String) (e : Event) :
    matchesCid cid e = true ↔ inTenant cid e := by
  cases cid <;> simp [matchesCid, inTenant]

theorem sumVC_filter_eq_foldr (p : Event → Bool) (P : Event → Prop)
    [DecidablePred P] (hpP : ∀ e, p e = true ↔ P e) (l : List Event) :
    sumVC (l.filter p) =
      l.foldr (fun e acc => if P e then e.visitor_count + acc else acc) 0 := by
  induction l with
  | nil => rfl
  | cons e l ih =>
    rw [List.filter_cons, List.foldr_cons]
    by_cases h : P e
    · rw [if_pos ((hpP e).mpr h), if_pos h]
      simp only [sumVC, List.map_cons, List.sum_cons] at ih ⊢
      omega
    · rw [if_neg (fun hb => h ((hpP e).mp hb)), if_neg h]
      exact ih

theorem visitorCountServer_nonvisitor (et : String) (h : et ∉ visitorTypes) :
    visitorCountServer et = 0 := by
  unfold visitorCountServer
  rw [if_neg]
  simpa using h

/-! ## C1 — idempotent insert on `event_uid` -/

/-- C1.  Inserting an event and then inserting any event with the same
`event_uid` leaves the store with exactly one row for that `event_uid`;
the duplicate insert is a no-op (the store is unchanged, and being a
total function it raises no error) and reports not-newly-inserted
(`false`).  The hypothesis is the store's uniqueness constraint: at most
one existing row with that `event_uid`. -/
theorem insertEvent_idempotent (s : List Event) (e e' : Event)
    (huid : e'.event_uid = e.event_uid)
    (hs : s.countP (fun x => x.event_uid == e.event_uid) ≤ 1) :
    (insertEvent e' (insertEvent e s).1).1.countP
        (fun x => x.event_uid == e.event_uid) = 1 ∧
    (insertEvent e' (insertEvent e s).1).1 = (insertEvent e s).1 ∧
    (insertEvent e' (insertEvent e s).1).2 = false := by
  by_cases h : s.any (fun x => x.event_uid == e.event_uid) = true
  · have h1 : insertEvent e s = (s, false) := by simp [insertEvent, h]
    have h2 : s.any (fun x => x.event_uid == e'.event_uid) = true := by
      rw [huid]; exact h
    have h3 : insertEvent e' s = (s, false) := by simp [insertEvent, h2]
    have hpos : 0 < s.countP (fun x => x.event_uid == e.event_uid) := by
      rw [List.countP_pos_iff]
      obtain ⟨x, hx, hxe⟩ := List.any_eq_true.mp h
      exact ⟨x, hx, hxe⟩
    rw [h1, h3]
    refine ⟨?_, rfl, rfl⟩
    show s.countP (fun x => x.event_uid == e.event_uid) = 1
    omega
  · have h1 : insertEvent e s = (s ++ [e], true) := by simp [insertEvent, h]
    have h2 : (s ++ [e]).any (fun x => x.event_uid == e'.event_uid) = true := by
      rw [List.any_eq_true]
      exact ⟨e, by simp, by simp [huid]⟩
    have h3 : insertEvent e' (s ++ [e]) = (s ++ [e], false) := by
      simp [insertEvent, h2]
    have hzero : s.countP (fun x => x.event_uid == e.event_uid) = 0 := by
      rw [List.countP_eq_zero]
      intro a ha
      simp only [List.any_eq_true, not_exists] at h
      intro hb
      exact h a ⟨ha, hb⟩
    rw [h1, h3]
    refine ⟨?_, rfl, rfl⟩
    show (s ++ [e]).countP (fun x => x.event_uid == e.event_uid) = 1
    rw [List.countP_append, hzero]
    simp

/-- C1 witness: concrete duplicate delivery (same `event_uid`, differing
payload) against a store already holding one unrelated event. -/
theorem insertEvent_idempotent_w :
    (insertEvent { evPerson2 with event_uid := "e1" }
        (insertEvent evPerson1 [evOffline]).1).1.countP
        (fun x => x.event_uid == evPerson1.event_uid) = 1 ∧
    (insertEvent { evPerson2 with event_uid := "e1" }
        (insertEvent evPerson1 [evOffline]).1).1 =
      (insertEvent evPerson1 [evOffline]).1 ∧
    (insertEvent { evPerson2 with event_uid := "e1" }
        (insertEvent evPerson1 [evOffline]).1).2 = false :=
  insertEvent_idempotent [evOffline] evPerson1 { evPerson2 with event_uid := "e1" }
    (by decide) (by decide)

/-! ## C3 — ordered substring classification -/

/-- C3.  `mapEventType` applies the ordered case-insensitive substring
rule table with first match winning, returns the lowercase input when no
rule matches, and `"unknown"` when the type is absent; in particular
`"Person-Motion-Alert" → person_detected`, `"ALPR_HIT" →
vehicle_detected`, `"CameraDisconnectEvent" → camera_offline`, and
`"weird_custom_type"` passes through. -/
theorem mapEventType_classification :
    (∀ type : Option String, mapEventType type = classifySpec type) ∧
    mapEventType (some "Person-Motion-Alert") = "person_detected" ∧
    mapEventType (some "ALPR_HIT") = "vehicle_detected" ∧
    mapEventType (some "CameraDisconnectEvent") = "camera_offline" ∧
    mapEventType (some "weird_custom_type") = "weird_custom_type" ∧
    mapEventType none = "unknown" := by
  refine ⟨?_, by decide, by decide, by decide, by decide, rfl⟩
  intro type
  cases type with
  | none => rfl
  | some s =>
    by_cases h : s == ""
    · simp [mapEventType, classifySpec, jsTruthy, h]
    · simp only [mapEventType, classifySpec, jsTruthy, h, Bool.not_false, if_true, if_false,
        Bool.false_eq_true, Option.getD_some, applyRules, typeRules, List.any_cons,
        List.any_nil, Bool.or_false, Bool.or_assoc]

/-! ## C10 — the two variants' classifiers agree outside the analytic branch -/

/-- C10.  For every type value that is not in the analytic branch
(absent, or with no `"analytic"` substring in its lowercase form),
`mapEventType` of `src/server.js` and `mapEventTypeRich` of
`src/unnamed/part_000` return the same canonical event type, for every
raw record. -/
theorem mapEventType_refinement (type : Option String) (raw : RawEvent)
    (h : nonAnalytic type) :
    mapEventType type = mapEventTypeRich type raw := by
  cases type with
  | none => rfl
  | some s =>
    simp only [nonAnalytic] at h
    by_cases hs : s == ""
    · simp [mapEventType, mapEventTypeRich, hs]
    · have h2 : (lowerStr s == "analytic") = false := by
        cases hb : lowerStr s == "analytic" with
        | false => rfl
        | true =>
          have : lowerStr s = "analytic" := by simpa using hb
          rw [this] at h
          rw [containsSub_self] at h
          cases h
      simp only [mapEventType, mapEventTypeRich, hs, h, h2, Bool.or_self, if_false,
        Bool.false_eq_true]

/-- C10 witness: a concrete non-analytic type agrees across both
variants even on a record whose descriptor list would matter in the
analytic branch. -/
theorem mapEventType_refinement_w :
    mapEventType (some "Person-Motion-Alert") =
      mapEventTypeRich (some "Person-Motion-Alert") rawTwoPersons :=
  mapEventType_refinement (some "Person-Motion-Alert") rawTwoPersons (by decide)

/-! ## C2 — visitor windows and IST bucketing -/

/-- C2 counterexample.  `visitors.week` is **not** a sum over events
whose IST-local calendar date falls in a window: `evW1` and `evW2` agree
on event type, visitor count, tenant and IST-local calendar date
(2026-02-22 IST), yet at `nowMar1` (2026-03-01T12:00:00Z) the week sum
counts `evW1` (13:00Z, inside the trailing 7 × 24 h instant window) and
not `evW2` (11:00Z, outside it).  No calendar-date-based window can
distinguish them, so the claim's description of `visitors.week` is false
on this input. -/
theorem visitorsWeek_not_ist_window :
    istLocalDate evW1 = istLocalDate evW2 ∧
    evW1.event_type = evW2.event_type ∧
    evW1.visitor_count = evW2.visitor_count ∧
    evW1.client_id = evW2.client_id ∧
    visitorsWeek [evW1] none nowMar1 = 1 ∧
    visitorsWeek [evW2] none nowMar1 = 0 := by decide

/-- C2 amended.  `visitors.today` and `visitors.yesterday` are sums of
`visitor_count` over visitor-class events whose IST-local calendar date
(the date of `timestamp_utc` + 5:30) equals the query's reference day
(the date of `now` − 5:30) resp. that day minus one; `visitors.week`
instead sums over visitor-class events whose raw `timestamp_utc` lies in
the trailing 7 × 24 h instant window, ignoring IST calendar dates.  The
event with `timestamp_utc` 2026-02-25T19:00:00Z is bucketed into the IST
day February 26, not February 25. -/
theorem visitors_windows_amended :
    (∀ events cid now,
        visitorsToday events cid now = specDaySum events cid (istRefDate now)) ∧
    (∀ events cid now,
        visitorsYesterday events cid now = specDaySum events cid (istRefDate now - 1)) ∧
    (∀ events cid now,
        visitorsWeek events cid now = specSinceSum events cid (now - 7 * 86400)) ∧
    istLocalDate evFeb25 = (epochDay 2026 2 26 : Int) ∧
    istLocalDate evFeb25 ≠ (epochDay 2026 2 25 : Int) := by
  refine ⟨?_, ?_, ?_, by decide, by decide⟩
  · intro events cid now
    exact sumVC_filter_eq_foldr _ _ (fun e => by
      simp [istLocalDate, istRefDate, matchesCid_iff, and_assoc]) events
  · intro events cid now
    exact sumVC_filter_eq_foldr _ _ (fun e => by
      simp [istLocalDate, istRefDate, matchesCid_iff, and_assoc]) events
  · intro events cid now
    exact sumVC_filter_eq_foldr _ _ (fun e => by
      simp [matchesCid_iff, and_assoc]) events

/-! ## C5 — visitor counting -/

/-- C5 counterexample.  The `src/server.js` normalizer ignores the
detected-object list: for the concrete visitor-class record
`rawTwoPersons` (raw type `"person"`, two `person` descriptors) the
stored event has `visitor_count` 1, while the claimed formula (number of
person/people/face descriptors, minimum 1 when none present) gives 2. -/
theorem visitorCount_server_cex :
    (processWebhook envEx exNow [itemTwoPersons] []).1.map Event.event_type =
      ["person_detected"] ∧
    (processWebhook envEx exNow [itemTwoPersons] []).1.map Event.visitor_count = [1] ∧
    claimVisitorCount "person_detected" (resolveObjects rawTwoPersons) = 2 ∧
    (1 : Nat) ≠ 2 := by decide

/-- C5 amended.  The `src/unnamed/part_000` normalizer computes
`visitor_count` exactly as the claim states (descriptor count with
minimum 1 for visitor-class types, 0 otherwise); the `src/server.js`
normalizer instead stores a constant 1 for visitor-class types and 0
otherwise, ignoring the object list.  Both variants satisfy the claim's
particulars: a `vehicle_detected` record with no object list yields 1,
and a `camera_offline` record yields 0 regardless of its object list. -/
theorem visitorCount_amended :
    (∀ et objects, visitorCountRich et objects = claimVisitorCount et objects) ∧
    (∀ et, visitorCountServer et = if et ∈ visitorTypes then 1 else 0) ∧
    visitorCountRich "vehicle_detected" [] = 1 ∧
    visitorCountServer "vehicle_detected" = 1 ∧
    (∀ objects, visitorCountRich "camera_offline" objects = 0) ∧
    visitorCountServer "camera_offline" = 0 := by
  refine ⟨?_, ?_, rfl, rfl, fun _ => rfl, rfl⟩
  · intro et objects
    unfold visitorCountRich claimVisitorCount
    by_cases h : et ∈ visitorTypes
    · rw [if_pos (by simpa using h), if_pos h]
      simp only []
      cases hk : (objects.filter isPersonObj).length with
      | zero => decide
      | succ n => rw [if_neg (Nat.succ_ne_zero n)]; omega
    · rw [if_neg (by simpa using h), if_neg h]
  · intro et
    unfold visitorCountServer
    by_cases h : et ∈ visitorTypes
    · rw [if_pos (by simpa using h), if_pos h]
    · rw [if_neg (by simpa using h), if_neg h]

/-! ## Pipeline lemmas shared by C4, C6 and C7 -/

theorem processItem_skip (env : Env) (now : Int) (item : WebhookItem) (store : List Event)
    (h : tsParsed item.raw now = none) : processItem env now item store = (store, 0) := by
  unfold processItem
  rw [h]

theorem processItem_fail (env : Env) (now : Int) (item : WebhookItem) (store : List Event)
    (h : item.dbFail = true) : processItem env now item store = (store, 0) := by
  unfold processItem
  cases htp : tsParsed item.raw now with
  | none => rfl
  | some t => simp [h]

theorem processWebhook_cons_noop (env : Env) (now : Int) (item : WebhookItem)
    (rest : List WebhookItem) (store : List Event)
    (h : processItem env now item store = (store, 0)) :
    processWebhook env now (item :: rest) store = processWebhook env now rest store := by
  show (fun p1 => (fun p2 => (p2.1, p1.2 + p2.2)) (processWebhook env now rest p1.1))
      (processItem env now item store) = _
  rw [h]
  simp

theorem processItem_snd (env : Env) (now : Int) (item : WebhookItem) (store : List Event) :
    (processItem env now item store).2 =
      if (tsParsed item.raw now).isSome && !item.dbFail then 1 else 0 := by
  unfold processItem
  cases htp : tsParsed item.raw now with
  | none => simp
  | some t => cases hf : item.dbFail <;> simp [hf]

theorem processWebhook_cons_snd (env : Env) (now : Int) (item : WebhookItem)
    (rest : List WebhookItem) (store : List Event) :
    (processWebhook env now (item :: rest) store).2 =
      (processItem env now item store).2 +
      (processWebhook env now rest (processItem env now item store).1).2 := rfl

/-! ## C4 — records with unparseable timestamps are dropped -/

/-- C4.  A record whose resolved `timestamp_utc` fails to parse is
dropped: processing the batch continues with the remaining records, the
store is untouched by the bad record and nothing is raised; in
particular `toIST "not-a-date"` is `null` and a single-record payload
with `timestamp_utc = "not-a-date"` yields zero stored events (with a
200 response). -/
theorem unparseable_timestamp_dropped :
    (∀ env now item rest store, tsParsed item.raw now = none →
        processWebhook env now (item :: rest) store = processWebhook env now rest store) ∧
    toIST "not-a-date" = none ∧
    webhookRoute envEx exNow [itemBad] [] = ([], { status := 200, received := 0 }) := by
  refine ⟨?_, by decide, by decide⟩
  intro env now item rest store h
  exact processWebhook_cons_noop env now item rest store (processItem_skip env now item store h)

/-- C4 witness: the `"not-a-date"` record is skipped in front of a valid
record. -/
theorem unparseable_timestamp_dropped_w :
    processWebhook envEx exNow (itemBad :: [itemGood1]) [] =
      processWebhook envEx exNow [itemGood1] [] :=
  unparseable_timestamp_dropped.1 envEx exNow itemBad [itemGood1] [] (by decide)

/-! ## C6 — batch independence and the webhook response -/

/-- C6.  The webhook response is always HTTP 200; `received` counts
exactly the records that were neither skipped (invalid timestamp) nor
hit by an insert failure; a skipped or failed record leaves the store
and the rest of the batch untouched; and the concrete batch of 3 records
whose second record has an invalid timestamp yields `received = 2`. -/
theorem webhook_partial_failure :
    (∀ env now items store, (webhookRoute env now items store).2.status = 200) ∧
    (∀ env now items store, (webhookRoute env now items store).2.received =
        (items.filter (fun it => (tsParsed it.raw now).isSome && !it.dbFail)).length) ∧
    (∀ env now item rest store, tsParsed item.raw now = none ∨ item.dbFail = true →
        processWebhook env now (item :: rest) store = processWebhook env now rest store) ∧
    (webhookRoute envEx exNow [itemGood1, itemBad, itemGood3] []).2 =
      { status := 200, received := 2 } := by
  refine ⟨fun env now items store => rfl, ?_, ?_, by decide⟩
  · intro env now items store
    show (processWebhook env now items store).2 = _
    induction items generalizing store with
    | nil => rfl
    | cons it rest ih =>
      rw [processWebhook_cons_snd, processItem_snd, ih, List.filter_cons]
      by_cases hc : ((tsParsed it.raw now).isSome && !it.dbFail) = true
      · simp [hc]; omega
      · simp [hc]
  · intro env now item rest store h
    refine processWebhook_cons_noop env now item rest store ?_
    rcases h with h | h
    · exact processItem_skip env now item store h
    · exact processItem_fail env now item store h

/-- C6 witness: a record whose insert fails (transient store failure)
does not disturb the rest of the batch. -/
theorem webhook_partial_failure_w :
    processWebhook envEx exNow ({ itemGood3 with dbFail := true } :: [itemGood1]) [] =
      processWebhook envEx exNow [itemGood1] [] :=
  webhook_partial_failure.2.2.1 envEx exNow { itemGood3 with dbFail := true }
    [itemGood1] [] (Or.inr rfl)

/-! ## C7 — the event-log invariant is preserved by ingestion -/

theorem insertEvent_inv (e : Event) (s : List Event) (hinv : StoreInv s)
    (h1 : e.timestamp_ist = e.timestamp_utc + IST_OFFSET)
    (h2 : e.event_type ∉ visitorTypes → e.visitor_count = 0) :
    StoreInv (insertEvent e s).1 := by
  unfold insertEvent
  by_cases h : s.any (fun x => x.event_uid == e.event_uid) = true
  · rw [if_pos h]
    exact hinv
  · rw [if_neg h]
    obtain ⟨hts, hnd, hvc⟩ := hinv
    have hnotin : e.event_uid ∉ s.map Event.event_uid := by
      intro hmem
      obtain ⟨x, hx, hxe⟩ := List.mem_map.mp hmem
      exact h (List.any_eq_true.mpr ⟨x, hx, by simp [hxe]⟩)
    refine ⟨?_, ?_, ?_⟩
    · intro x hx
      rcases List.mem_append.mp hx with hx | hx
      · exact hts x hx
      · have : x = e := by simpa using hx
        subst this
        exact h1
    · show ((s ++ [e]).map Event.event_uid).Nodup
      rw [List.map_append]
      refine List.Nodup.append hnd (by simp) ?_
      intro a ha hb
      simp only [List.map_cons, List.map_nil, List.mem_singleton] at hb
      subst hb
      exact hnotin ha
    · intro x hx hnv
      rcases List.mem_append.mp hx with hx | hx
      · exact hvc x hx hnv
      · have : x = e := by simpa using hx
        subst this
        exact h2 hnv

theorem processItem_inv (env : Env) (now : Int) (item : WebhookItem) (store : List Event)
    (h : StoreInv store) : StoreInv (processItem env now item store).1 := by
  unfold processItem
  cases htp : tsParsed item.raw now with
  | none => exact h
  | some t =>
    simp only []
    cases hf : item.dbFail with
    | true => simp only [if_true]; exact h
    | false =>
      rw [if_neg (by simp)]
      exact insertEvent_inv _ store h rfl
        (fun hnv => visitorCountServer_nonvisitor _ hnv)

/-- C7.  Every webhook ingestion step preserves the event-log invariant:
every stored event's `timestamp_ist` is its `timestamp_utc` shifted by
exactly 5 h 30 min, no two stored events share an `event_uid`, and every
stored non-visitor-class event has `visitor_count = 0`. -/
theorem ingestion_preserves_invariant (env : Env) (now : Int)
    (items : List WebhookItem) (store : List Event) (h : StoreInv store) :
    StoreInv (processWebhook env now items store).1 := by
  induction items generalizing store with
  | nil => exact h
  | cons it rest ih => exact ih _ (processItem_inv env now it store h)

/-- C7 witness: the invariant holds for the empty log and is preserved
across a concrete mixed batch. -/
theorem ingestion_preserves_invariant_w :
    StoreInv ([] : List Event) ∧
    StoreInv (processWebhook envEx exNow [itemGood1, itemBad, itemGood3] []).1 :=
  ⟨by simp [StoreInv],
   ingestion_preserves_invariant envEx exNow [itemGood1, itemBad, itemGood3] []
     (by simp [StoreInv])⟩

/-! ## C8 — fixed 30-minute downtime policy -/

/-- C8.  Every entry of the downtime list satisfies
`downtime_minutes = incidents × 30`, where `incidents` is the number of
stored `camera_offline` events of that entry's camera (under the tenant
filter); and the spec's example input, which has exactly one
`camera_offline` event, yields exactly one downtime entry with
`incidents = 1`. -/
theorem downtime_fixed_policy :
    (∀ events cid env r, r ∈ downtimeList events cid env →
        r.downtime_minutes = r.incidents * 30 ∧
        r.incidents = (events.filter (fun e =>
          (e.event_type == "camera_offline") && matchesCid cid e &&
          (e.camera_id == r.camera_id))).length) ∧
    downtimeList exampleEvents (some "C01") envEx =
      [{ camera_id := "93518", location := "Main Gate", incidents := 1,
         downtime_minutes := 30 }] := by
  refine ⟨?_, by decide⟩
  intro events cid env r hr
  unfold downtimeList at hr
  simp only [] at hr
  obtain ⟨cam, hcam, rfl⟩ := List.mem_map.mp hr
  refine ⟨rfl, ?_⟩
  show (events.filter (fun e =>
      (e.event_type == "camera_offline") && matchesCid cid e)).countP
      (fun e => e.camera_id == cam) =
    (events.filter (fun e =>
      (e.event_type == "camera_offline") && matchesCid cid e &&
      (e.camera_id == cam))).length
  rw [List.countP_eq_length_filter, List.filter_filter]
  congr 1
  apply List.filter_congr
  intro a _
  cases a.event_type == "camera_offline" <;> cases matchesCid cid a <;>
    cases a.camera_id == cam <;> rfl

/-- C8 witness: the single entry of the example's downtime list. -/
theorem downtime_fixed_policy_w :
    (⟨"93518", "Main Gate", 1, 30⟩ : DowntimeRow).downtime_minutes =
      (⟨"93518", "Main Gate", 1, 30⟩ : DowntimeRow).incidents * 30 ∧
    (⟨"93518", "Main Gate", 1, 30⟩ : DowntimeRow).incidents =
      (exampleEvents.filter (fun e =>
        (e.event_type == "camera_offline") && matchesCid (some "C01") e &&
        (e.camera_id == (⟨"93518", "Main Gate", 1, 30⟩ : DowntimeRow).camera_id))).length :=
  downtime_fixed_policy.1 exampleEvents (some "C01") envEx
    ⟨"93518", "Main Gate", 1, 30⟩ (by decide)

/-! ## C9 — a tenant with zero events gets an all-zero, all-empty snapshot -/

/-- C9.  For a tenant owning no stored events the snapshot has
`visitors = {today: 0, yesterday: 0, week: 0}` and empty (never
null/absent) `camera_activity` and `downtime` lists; the sums are `Nat`
by construction (non-negative integers), and empty windows produce 0. -/
theorem empty_tenant_snapshot (events : List Event) (c : String) (env : Env)
    (now : Int) (h : ∀ e ∈ events, e.client_id ≠ c) :
    statsSnapshot events (some c) env now =
      { visitors := { today := 0, yesterday := 0, week := 0 }
        camera_activity := []
        downtime := []
        total_events_stored := events.length } := by
  have hfil : ∀ p : Event → Bool,
      events.filter (fun e => p e && matchesCid (some c) e) = [] := by
    intro p
    rw [List.filter_eq_nil_iff]
    intro a ha
    simp [matchesCid, h a ha]
  have h1 : visitorsToday events (some c) now = 0 := by
    unfold visitorsToday
    rw [hfil]
    rfl
  have h2 : visitorsYesterday events (some c) now = 0 := by
    unfold visitorsYesterday
    rw [hfil]
    rfl
  have h3 : visitorsWeek events (some c) now = 0 := by
    unfold visitorsWeek
    rw [hfil]
    rfl
  have h4 : cameraActivity events (some c) env now = [] := by
    unfold cameraActivity
    rw [hfil]
    rfl
  have h5 : downtimeList events (some c) env = [] := by
    unfold downtimeList
    rw [hfil]
    rfl
  simp [statsSnapshot, totalEventsStored, h1, h2, h3, h4, h5]

/-- C9 witness: tenant `"C02"` owns none of the example events. -/
theorem empty_tenant_snapshot_w :
    statsSnapshot exampleEvents (some "C02") envEx exNow =
      { visitors := { today := 0, yesterday := 0, week := 0 }
        camera_activity := []
        downtime := []
        total_events_stored := 3 } :=
  empty_tenant_snapshot exampleEvents "C02" envEx exNow (by decide)

end SocietyGuard
